import Mathlib

/-!
Verification of the MPU9250 driver (MPU9250.cpp) against its
natural-language specification.

The driver's numeric procedures are shallowly embedded: C `int16_t`/`int32_t`
arithmetic becomes `ℤ` (with `Int.tdiv` for C's truncating division),
`uint8_t` becomes `ℕ`, and `float`/`double` arithmetic is modelled exactly
over `ℚ`.  Bus reads are modelled by passing the bytes a read would return as
explicit arguments; register writes are modelled by an explicit register-file
state.
-/

namespace MPU9250

/-! ## Self test (MPU9250::selfTest)

The pure numeric core of `selfTest`: the full-scale code `FS`, the factory
trim computation from the six self-test trim bytes, the six percent
deviations, and the pass/fail decision loop.  The averaged sensor readings
(`aAvg`, `aSTAvg`, `gAvg`, `gSTAvg`, each an `int32` after division by 200)
and the six trim bytes are inputs supplied by the device. -/

/-- The full-scale code used throughout `selfTest` (`uint8_t FS = 0`). -/
def FS : ℕ := 0

/-- Factory-trim value computed from one self-test trim byte, mirroring
`(float)(2620/1<<FS)*(pow( 1.01 , ((float)selfTest[k] - 1.0) ))`.
Note the C expression parses as `(2620/1) << FS`; with `FS = 0` this is
`2620`.  The exponent `selfTest[k] - 1.0` is an integer, so `pow` is an
integer power of `1.01`. -/
def factoryTrim (trimByte : ℕ) : ℚ :=
  (((2620 / 1) <<< FS : ℕ) : ℚ) * (101 / 100 : ℚ) ^ ((trimByte : ℤ) - 1)

/-- One percent-deviation ("tolerance") entry:
`100.0f*((float)(stAvg - avg))/factoryTrim - 100.0f`. -/
def tolerance (stAvg avg : ℤ) (trimByte : ℕ) : ℚ :=
  100 * ((stAvg - avg : ℤ) : ℚ) / factoryTrim trimByte - 100

/-- The six tolerance entries, in the source's order: three accelerometer
axes (trim bytes 0..2), then three gyroscope axes (trim bytes 3..5). -/
def tolerances (aAvg aSTAvg gAvg gSTAvg : Fin 3 → ℤ) (st : Fin 6 → ℕ)
    (k : Fin 6) : ℚ :=
  match k with
  | 0 => tolerance (aSTAvg 0) (aAvg 0) (st 0)
  | 1 => tolerance (aSTAvg 1) (aAvg 1) (st 1)
  | 2 => tolerance (aSTAvg 2) (aAvg 2) (st 2)
  | 3 => tolerance (gSTAvg 0) (gAvg 0) (st 3)
  | 4 => tolerance (gSTAvg 1) (gAvg 1) (st 4)
  | 5 => tolerance (gSTAvg 2) (gAvg 2) (st 5)

/-- The final check loop of `selfTest`: return `false` as soon as some
`tolerances[k] >= 14.f`, else return `true`. -/
def checkTolerances (tol : Fin 6 → ℚ) : Bool :=
  (List.finRange 6).all fun k => ! decide (14 ≤ tol k)

/-- Pass/fail outcome of `MPU9250::selfTest` as a function of the averaged
normal readings, the averaged self-test readings and the six trim bytes. -/
def selfTest (aAvg aSTAvg gAvg gSTAvg : Fin 3 → ℤ) (st : Fin 6 → ℕ) : Bool :=
  checkTolerances (tolerances aAvg aSTAvg gAvg gSTAvg st)

end MPU9250

/-- Claim C1: `selfTest` fails (returns `false`) iff some of the six percent
deviations `100*(selfTestMean - normalMean)/factoryTrim - 100` is `≥ 14.0`,
and succeeds (returns `true`) iff all six are `< 14.0`; only this upper bound
is tested, so a deviation `≤ -14.0` alone does not cause failure (see the
witness, where every deviation equals `-100`). -/
theorem C1_selfTest_threshold (aAvg aSTAvg gAvg gSTAvg : Fin 3 → ℤ)
    (st : Fin 6 → ℕ) :
    ((∃ k : Fin 6, 14 ≤ MPU9250.tolerances aAvg aSTAvg gAvg gSTAvg st k) →
      MPU9250.selfTest aAvg aSTAvg gAvg gSTAvg st = false) ∧
    ((∀ k : Fin 6, MPU9250.tolerances aAvg aSTAvg gAvg gSTAvg st k < 14) →
      MPU9250.selfTest aAvg aSTAvg gAvg gSTAvg st = true) := by
  constructor
  · rintro ⟨k, hk⟩
    cases hb : MPU9250.selfTest aAvg aSTAvg gAvg gSTAvg st
    · rfl
    · exfalso
      simp only [MPU9250.selfTest, MPU9250.checkTolerances, List.all_eq_true,
        List.mem_finRange, Bool.not_eq_true', decide_eq_false_iff_not,
        not_le] at hb
      exact absurd hk (not_le.mpr (hb k trivial))
  · intro h
    simp only [MPU9250.selfTest, MPU9250.checkTolerances, List.all_eq_true,
      List.mem_finRange, Bool.not_eq_true', decide_eq_false_iff_not, not_le]
    exact fun k _ => h k

/-- Witness for C1.  First input: accelerometer X self-test mean 3000,
normal mean 0, trim byte 1 (factory trim 2620), deviation
`100*3000/2620 - 100 ≈ 14.5 ≥ 14`, so the result is `false`.  Second input:
all means 0, every deviation is exactly `-100 ≤ -14`, yet the result is
`true` — only the upper bound is checked. -/
theorem C1_selfTest_threshold_witness :
    MPU9250.selfTest ![0, 0, 0] ![3000, 0, 0] ![0, 0, 0] ![0, 0, 0]
      (fun _ => 1) = false ∧
    MPU9250.selfTest ![0, 0, 0] ![0, 0, 0] ![0, 0, 0] ![0, 0, 0]
      (fun _ => 1) = true ∧
    MPU9250.tolerances ![0, 0, 0] ![0, 0, 0] ![0, 0, 0] ![0, 0, 0]
      (fun _ => 1) 0 = -100 := by
  refine ⟨?_, ?_, ?_⟩
  · apply (C1_selfTest_threshold ![0, 0, 0] ![3000, 0, 0] ![0, 0, 0] ![0, 0, 0]
      (fun _ => 1)).1
    refine ⟨0, ?_⟩
    simp only [MPU9250.tolerances, MPU9250.tolerance, MPU9250.factoryTrim,
      MPU9250.FS]
    norm_num
  · apply (C1_selfTest_threshold ![0, 0, 0] ![0, 0, 0] ![0, 0, 0] ![0, 0, 0]
      (fun _ => 1)).2
    intro k
    fin_cases k <;>
      · simp only [MPU9250.tolerances, MPU9250.tolerance, MPU9250.factoryTrim,
          MPU9250.FS]
        norm_num
  · simp only [MPU9250.tolerances, MPU9250.tolerance, MPU9250.factoryTrim,
      MPU9250.FS]
    norm_num

/-- Claim C2, as amended.  Each factory-trim value is
`(2620 / 2^FS) * 1.01^(trimByte - 1)` with `FS = 0` (divisor 1); in
particular `trimByte = 1` gives exactly `2620`, and `trimByte = 101` gives
`2620 * 1.01^100`, which lies strictly between `7086.6` and `7086.7`
(approximately `7086.6`, not `7121.9` as the original claim stated). -/
theorem C2_factoryTrim_formula :
    (∀ t : ℕ, MPU9250.factoryTrim t =
      (2620 / 2 ^ MPU9250.FS : ℚ) * (101 / 100 : ℚ) ^ ((t : ℤ) - 1)) ∧
    MPU9250.factoryTrim 1 = 2620 ∧
    (70866 / 10 : ℚ) < MPU9250.factoryTrim 101 ∧
    MPU9250.factoryTrim 101 < (70867 / 10 : ℚ) := by
  refine ⟨fun t => ?_, ?_, ?_, ?_⟩ <;>
    · simp only [MPU9250.factoryTrim, MPU9250.FS, Nat.shiftLeft_eq]
      norm_num

/-- Counterexample for C2 as originally stated: `2620 * 1.01^100` is not
approximately `7121.9` — it is more than `35` below it (the spec's figure
`7121.9 ≈ 2620 * e` overshoots the true value `≈ 7086.6`). -/
theorem C2_factoryTrim_counterexample :
    MPU9250.factoryTrim 101 < 7087 ∧
    35 < (71219 / 10 : ℚ) - MPU9250.factoryTrim 101 := by
  constructor <;>
    · simp only [MPU9250.factoryTrim, MPU9250.FS, Nat.shiftLeft_eq]
      norm_num

namespace MPU9250

/-! ## Register writes performed by selfTest (claim C3)

`selfTest` temporarily reconfigures five configuration registers.  The
register file is modelled as a total map from register names to byte values;
registers not written by `selfTest` are collected under `Reg.OTHER`. -/

/-- Names of the device registers `selfTest` writes, plus all others. -/
inductive Reg where
  | SMPLRT_DIV
  | CONFIG
  | GYRO_CONFIG
  | ACCEL_CONFIG
  | ACCEL_CONFIG2
  | OTHER (addr : ℕ)
deriving DecidableEq

/-- A register write: update the register file at one register. -/
def writeMPURegister (s : Reg → ℕ) (r : Reg) (v : ℕ) : Reg → ℕ :=
  fun x => if x = r then v else s x

/-- The sequence of configuration-register writes performed by
`MPU9250::selfTest`, in source order: the five baseline writes, then the
self-test-excitation writes `ACCEL_CONFIG = 0xE0`, `GYRO_CONFIG = 0xE0`,
then the "normal operation" writes `ACCEL_CONFIG = 0x00`,
`GYRO_CONFIG = 0x00`.  The remainder of `selfTest` only reads. -/
def selfTestRegisterEffect (s : Reg → ℕ) : Reg → ℕ :=
  let s1 := writeMPURegister s Reg.SMPLRT_DIV 0x00
  let s2 := writeMPURegister s1 Reg.CONFIG 0x02
  let s3 := writeMPURegister s2 Reg.GYRO_CONFIG (1 <<< FS)
  let s4 := writeMPURegister s3 Reg.ACCEL_CONFIG2 0x02
  let s5 := writeMPURegister s4 Reg.ACCEL_CONFIG (1 <<< FS)
  let s6 := writeMPURegister s5 Reg.ACCEL_CONFIG 0xE0
  let s7 := writeMPURegister s6 Reg.GYRO_CONFIG 0xE0
  let s8 := writeMPURegister s7 Reg.ACCEL_CONFIG 0x00
  writeMPURegister s8 Reg.GYRO_CONFIG 0x00

/-- A register file in which SMPLRT_DIV initially holds `0x04` (the sample
rate divisor the bundled MasterTest example configures) and all other
registers hold `0`. -/
def exampleRegFile : Reg → ℕ :=
  fun r => if r = Reg.SMPLRT_DIV then 0x04 else 0

end MPU9250

/-- Counterexample for C3 as originally stated: after `selfTest`'s
excitation phase is disabled, `SMPLRT_DIV` holds `0x00`, not the value
`0x04` it held before `selfTest` began — the pre-call register values are
never saved, so they are not restored. -/
theorem C3_selfTest_restore_counterexample :
    MPU9250.selfTestRegisterEffect MPU9250.exampleRegFile
        MPU9250.Reg.SMPLRT_DIV = 0 ∧
    MPU9250.exampleRegFile MPU9250.Reg.SMPLRT_DIV = 4 ∧
    MPU9250.selfTestRegisterEffect MPU9250.exampleRegFile
        MPU9250.Reg.SMPLRT_DIV ≠
      MPU9250.exampleRegFile MPU9250.Reg.SMPLRT_DIV := by
  refine ⟨rfl, rfl, ?_⟩
  decide

/-- Claim C3, as amended.  After the self-test excitation phase is disabled,
the five configuration registers `selfTest` wrote hold fixed values —
`SMPLRT_DIV = 0x00`, `CONFIG = 0x02`, `GYRO_CONFIG = 0x00`,
`ACCEL_CONFIG = 0x00`, `ACCEL_CONFIG2 = 0x02` — regardless of what they held
before `selfTest` began (the pre-call values are not saved or restored);
every register `selfTest` does not write is unchanged. -/
theorem C3_selfTest_register_effect (s : MPU9250.Reg → ℕ) :
    MPU9250.selfTestRegisterEffect s MPU9250.Reg.SMPLRT_DIV = 0x00 ∧
    MPU9250.selfTestRegisterEffect s MPU9250.Reg.CONFIG = 0x02 ∧
    MPU9250.selfTestRegisterEffect s MPU9250.Reg.GYRO_CONFIG = 0x00 ∧
    MPU9250.selfTestRegisterEffect s MPU9250.Reg.ACCEL_CONFIG = 0x00 ∧
    MPU9250.selfTestRegisterEffect s MPU9250.Reg.ACCEL_CONFIG2 = 0x02 ∧
    ∀ a : ℕ, MPU9250.selfTestRegisterEffect s (MPU9250.Reg.OTHER a) =
      s (MPU9250.Reg.OTHER a) :=
  ⟨rfl, rfl, rfl, rfl, rfl, fun _ => rfl⟩

namespace MPU9250

/-! ## runTests (MPU9250::runTests) and its error taxonomy (claims C4, C10) -/

/-- The error codes returned by `MPUIMU::runTests` (`MPUIMU::Error_t`). -/
inductive Error_t where
  | ERROR_NONE
  | ERROR_IMU_ID
  | ERROR_SELFTEST
  | ERROR_MAG_ID
deriving DecidableEq

/-- The device-visible responses `runTests` consumes: the primary who-am-I
byte, whether `selfTest()` passes on this device, and the magnetometer
(AK8963) who-am-I byte. -/
structure DeviceProbe where
  whoAmI : ℕ
  selfTestPasses : Bool
  magWhoAmI : ℕ

/-- The operations `runTests` performs, in source order.  `getId` and
`getAK8963CID` only read a who-am-I register; `reset`, `doSelfTest`,
`calibrate`, `initMPU6500` and `initAK8963` write device registers. -/
inductive RunAct where
  | getId
  | reset
  | doSelfTest
  | calibrate
  | initMPU6500
  | getAK8963CID
  | initAK8963
deriving DecidableEq

/-- Whether an operation writes device registers. -/
def RunAct.isWrite : RunAct → Bool
  | .getId => false
  | .getAK8963CID => false
  | _ => true

/-- `MPU9250::runTests`, returning its error code together with the trace of
operations it performed, mirroring the source's early returns:
who-am-I check, then `reset`; `selfTest` check; `calibrate`;
`initMPU6500`; magnetometer who-am-I check; `initAK8963`. -/
def runTests (d : DeviceProbe) : Error_t × List RunAct :=
  if d.whoAmI ≠ 0x71 then
    (Error_t.ERROR_IMU_ID, [RunAct.getId])
  else if d.selfTestPasses = false then
    (Error_t.ERROR_SELFTEST, [RunAct.getId, RunAct.reset, RunAct.doSelfTest])
  else if d.magWhoAmI ≠ 0x48 then
    (Error_t.ERROR_MAG_ID,
      [RunAct.getId, RunAct.reset, RunAct.doSelfTest, RunAct.calibrate,
       RunAct.initMPU6500, RunAct.getAK8963CID])
  else
    (Error_t.ERROR_NONE,
      [RunAct.getId, RunAct.reset, RunAct.doSelfTest, RunAct.calibrate,
       RunAct.initMPU6500, RunAct.getAK8963CID, RunAct.initAK8963])

end MPU9250

/-- Claim C4: `runTests` returns `ERROR_IMU_ID` exactly when the primary
who-am-I byte differs from `0x71`; otherwise `ERROR_SELFTEST` exactly when
`selfTest` fails; otherwise `ERROR_MAG_ID` exactly when the magnetometer
who-am-I byte differs from `0x48`; otherwise `ERROR_NONE`.  The trace of
operations contains no repetition: each error is terminal and nothing is
retried inside `runTests`. -/
theorem C4_runTests_errors (d : MPU9250.DeviceProbe) :
    ((MPU9250.runTests d).1 = MPU9250.Error_t.ERROR_IMU_ID ↔
      d.whoAmI ≠ 0x71) ∧
    ((MPU9250.runTests d).1 = MPU9250.Error_t.ERROR_SELFTEST ↔
      d.whoAmI = 0x71 ∧ d.selfTestPasses = false) ∧
    ((MPU9250.runTests d).1 = MPU9250.Error_t.ERROR_MAG_ID ↔
      d.whoAmI = 0x71 ∧ d.selfTestPasses = true ∧ d.magWhoAmI ≠ 0x48) ∧
    ((MPU9250.runTests d).1 = MPU9250.Error_t.ERROR_NONE ↔
      d.whoAmI = 0x71 ∧ d.selfTestPasses = true ∧ d.magWhoAmI = 0x48) ∧
    (MPU9250.runTests d).2.Nodup := by
  obtain ⟨w, stp, m⟩ := d
  by_cases h1 : w = 0x71 <;> by_cases h2 : stp = true <;>
    by_cases h3 : m = 0x48 <;>
    simp_all [MPU9250.runTests]

/-- Claim C10: when the initial who-am-I byte differs from `0x71`,
`runTests` returns `ERROR_IMU_ID` having performed only the who-am-I read:
no reset, self-test, calibration or initialization operation runs, and in
particular no operation in the trace writes a device register, so the device
register state is unchanged. -/
theorem C10_runTests_imu_id_no_write (d : MPU9250.DeviceProbe)
    (h : d.whoAmI ≠ 0x71) :
    MPU9250.runTests d =
      (MPU9250.Error_t.ERROR_IMU_ID, [MPU9250.RunAct.getId]) ∧
    ∀ a ∈ (MPU9250.runTests d).2, a.isWrite = false := by
  have hrun : MPU9250.runTests d =
      (MPU9250.Error_t.ERROR_IMU_ID, [MPU9250.RunAct.getId]) := by
    simp [MPU9250.runTests, h]
  refine ⟨hrun, ?_⟩
  rw [hrun]
  intro a ha
  simp only [List.mem_singleton] at ha
  subst ha
  rfl

/-- Witness for C10 at a concrete device whose who-am-I byte reads `0x70`. -/
theorem C10_runTests_imu_id_no_write_witness :
    MPU9250.runTests ⟨0x70, true, 0x48⟩ =
      (MPU9250.Error_t.ERROR_IMU_ID, [MPU9250.RunAct.getId]) :=
  (C10_runTests_imu_id_no_write ⟨0x70, true, 0x48⟩ (by decide)).1

namespace MPU9250

/-! ## Magnetometer data path (claims C5, C6) -/

/-- Reinterpretation of a 16-bit pattern as a signed `int16_t` value
(two's complement). -/
def toInt16 (v : ℕ) : ℤ :=
  if v % 65536 < 32768 then ((v % 65536 : ℕ) : ℤ)
  else ((v % 65536 : ℕ) : ℤ) - 65536

/-- `MPU9250::readMagData`: the seven bytes read starting at `AK8963_XOUT_L`
(six little-endian data bytes then the ST2 status byte) and the previous
contents of the destination buffer.  If the overflow bit `0x08` of ST2 is
set, the destination is left untouched; otherwise the three little-endian
signed 16-bit axis values are stored.  No error is signalled either way:
the function's only effect is the returned destination buffer. -/
def readMagData (rawData : Fin 7 → ℕ) (destination : Fin 3 → ℤ) :
    Fin 3 → ℤ :=
  let c := rawData 6
  if ! (c &&& 0x08 ≠ 0) then
    fun i =>
      match i with
      | 0 => toInt16 ((rawData 1 <<< 8) ||| rawData 0)
      | 1 => toInt16 ((rawData 3 <<< 8) ||| rawData 2)
      | 2 => toInt16 ((rawData 5 <<< 8) ||| rawData 4)
  else
    destination

/-- `MPU9250::readMagnetometer`, modelled from the point where `readMagData`
has produced the three counts: `mx = count*mRes*magCalibration - magBias`
per axis, followed by the in-place multiplications `mx *= magScale` etc.,
mirroring the source's sequence of assignments. -/
def readMagnetometer (magCount : Fin 3 → ℤ) (mRes : ℚ)
    (magCalibration magBias magScale : Fin 3 → ℚ) : ℚ × ℚ × ℚ :=
  let mx := (magCount 0 : ℚ) * mRes * magCalibration 0 - magBias 0
  let my := (magCount 1 : ℚ) * mRes * magCalibration 1 - magBias 1
  let mz := (magCount 2 : ℚ) * mRes * magCalibration 2 - magBias 2
  let mx := mx * magScale 0
  let my := my * magScale 1
  let mz := mz * magScale 2
  (mx, my, mz)

/-- Modelled from the spec wording of claim C5: convert each axis as
`physical = raw * resolution - bias`, "additionally multiplied by that
axis's soft-iron scale and per-axis factory sensitivity adjustment" — i.e.
both multipliers applied to the bias-subtracted value. -/
def readMagnetometerClaimed (magCount : Fin 3 → ℤ) (mRes : ℚ)
    (magCalibration magBias magScale : Fin 3 → ℚ) : ℚ × ℚ × ℚ :=
  (((magCount 0 : ℚ) * mRes - magBias 0) * magScale 0 * magCalibration 0,
   ((magCount 1 : ℚ) * mRes - magBias 1) * magScale 1 * magCalibration 1,
   ((magCount 2 : ℚ) * mRes - magBias 2) * magScale 2 * magCalibration 2)

end MPU9250

/-- Counterexample for C5 as originally stated: with raw count 1,
resolution 2, sensitivity adjustment 3, bias 4 and soft-iron scale 5, the
code computes `(1*2*3 - 4)*5 = 10` on the x axis, while applying the
sensitivity adjustment after the bias subtraction (as the claim's wording
has it) would give `(1*2 - 4)*5*3 = -30`. -/
theorem C5_readMagnetometer_counterexample :
    (MPU9250.readMagnetometer (fun _ => 1) 2 (fun _ => 3) (fun _ => 4)
        (fun _ => 5)).1 = 10 ∧
    (MPU9250.readMagnetometerClaimed (fun _ => 1) 2 (fun _ => 3) (fun _ => 4)
        (fun _ => 5)).1 = -30 ∧
    (MPU9250.readMagnetometer (fun _ => 1) 2 (fun _ => 3) (fun _ => 4)
        (fun _ => 5)).1 ≠
      (MPU9250.readMagnetometerClaimed (fun _ => 1) 2 (fun _ => 3)
        (fun _ => 4) (fun _ => 5)).1 := by
  refine ⟨?_, ?_, ?_⟩ <;>
    · simp only [MPU9250.readMagnetometer, MPU9250.readMagnetometerClaimed]
      norm_num

/-- Claim C5, as amended.  `readMagnetometer` converts each axis as
`physical = (raw * resolution * sensitivityAdjustment - bias) * softIronScale`:
the per-axis factory sensitivity adjustment multiplies the raw·resolution
product before the bias is subtracted, and only the soft-iron scale
multiplies the bias-subtracted value. -/
theorem C5_readMagnetometer_formula (magCount : Fin 3 → ℤ) (mRes : ℚ)
    (magCalibration magBias magScale : Fin 3 → ℚ) :
    MPU9250.readMagnetometer magCount mRes magCalibration magBias magScale =
      (((magCount 0 : ℚ) * mRes * magCalibration 0 - magBias 0) * magScale 0,
       ((magCount 1 : ℚ) * mRes * magCalibration 1 - magBias 1) * magScale 1,
       ((magCount 2 : ℚ) * mRes * magCalibration 2 - magBias 2) *
         magScale 2) :=
  rfl

/-- Claim C6: if the ST2 status byte (the seventh byte read) has the
overflow bit `0x08` set, `readMagData` leaves the destination buffer exactly
as it was; if the bit is clear, it stores the three little-endian signed
16-bit axis values.  (No error value exists in either case — the returned
buffer is the function's only effect.) -/
theorem C6_readMagData_overflow (rawData : Fin 7 → ℕ)
    (destination : Fin 3 → ℤ) :
    (rawData 6 &&& 0x08 ≠ 0 →
      MPU9250.readMagData rawData destination = destination) ∧
    (rawData 6 &&& 0x08 = 0 →
      MPU9250.readMagData rawData destination = fun i =>
        match i with
        | 0 => MPU9250.toInt16 ((rawData 1 <<< 8) ||| rawData 0)
        | 1 => MPU9250.toInt16 ((rawData 3 <<< 8) ||| rawData 2)
        | 2 => MPU9250.toInt16 ((rawData 5 <<< 8) ||| rawData 4)) := by
  constructor
  · intro h
    simp [MPU9250.readMagData, h]
  · intro h
    simp [MPU9250.readMagData, h]

/-- Witness for C6.  With ST2 = `0x08` (overflow) the buffer keeps its old
contents `(7, 8, 9)`; with ST2 = `0x00` and data bytes
`0x01 0x02 0x03 0x04 0xFF 0xFF` it receives `(0x0201, 0x0403, -1)`. -/
theorem C6_readMagData_overflow_witness :
    MPU9250.readMagData ![1, 2, 3, 4, 0xFF, 0xFF, 0x08] ![7, 8, 9] =
      ![7, 8, 9] ∧
    MPU9250.readMagData ![1, 2, 3, 4, 0xFF, 0xFF, 0x00] ![7, 8, 9] =
      fun i =>
        match i with
        | 0 => MPU9250.toInt16 ((![1, 2, 3, 4, 0xFF, 0xFF, 0x00] 1 <<< 8) |||
            ![1, 2, 3, 4, 0xFF, 0xFF, 0x00] 0)
        | 1 => MPU9250.toInt16 ((![1, 2, 3, 4, 0xFF, 0xFF, 0x00] 3 <<< 8) |||
            ![1, 2, 3, 4, 0xFF, 0xFF, 0x00] 2)
        | 2 => MPU9250.toInt16 ((![1, 2, 3, 4, 0xFF, 0xFF, 0x00] 5 <<< 8) |||
            ![1, 2, 3, 4, 0xFF, 0xFF, 0x00] 4) :=
  ⟨(C6_readMagData_overflow ![1, 2, 3, 4, 0xFF, 0xFF, 0x08] ![7, 8, 9]).1
      (by decide),
   (C6_readMagData_overflow ![1, 2, 3, 4, 0xFF, 0xFF, 0x00] ![7, 8, 9]).2
      (by decide)⟩

namespace MPU9250

/-! ## Magnetometer calibration (MPU9250::calibrateMagnetometer)
(claims C7, C8, C9)

The sampling loop tracks per-axis min/max over the observed samples
(starting from `mag_max = -32767`, `mag_min = 32767`); the hard-iron bias is
the midpoint `(max+min)/2` (C integer division), converted to physical units
with `_mRes * _magCalibration[j]`; the soft-iron scale divides the average
half-swing by each axis's half-swing `(max-min)/2`. -/

/-- One iteration of the min/max tracking loop:
`if(mag_temp[jj] > mag_max[jj]) mag_max[jj] = mag_temp[jj];` and likewise
for the minimum. -/
def magMinMaxStep (mm : (Fin 3 → ℤ) × (Fin 3 → ℤ)) (mag_temp : Fin 3 → ℤ) :
    (Fin 3 → ℤ) × (Fin 3 → ℤ) :=
  (fun j => if mag_temp j > mm.1 j then mag_temp j else mm.1 j,
   fun j => if mag_temp j < mm.2 j then mag_temp j else mm.2 j)

/-- Per-axis (max, min) of the observed samples, from the initial values
`mag_max = {-32767,...}`, `mag_min = {32767,...}`. -/
def magMinMax (samples : List (Fin 3 → ℤ)) : (Fin 3 → ℤ) × (Fin 3 → ℤ) :=
  samples.foldl magMinMaxStep (fun _ => -32767, fun _ => 32767)

/-- Hard-iron bias in raw counts: `mag_bias[j] = (mag_max[j]+mag_min[j])/2`
(C `int32_t` division). -/
def mag_bias (samples : List (Fin 3 → ℤ)) : Fin 3 → ℤ :=
  fun j => ((magMinMax samples).1 j + (magMinMax samples).2 j).tdiv 2

/-- Hard-iron bias in physical units:
`_magBias[j] = (float) mag_bias[j]*_mRes*_magCalibration[j]`. -/
def magBiasField (samples : List (Fin 3 → ℤ)) (mRes : ℚ)
    (magCalibration : Fin 3 → ℚ) : Fin 3 → ℚ :=
  fun j => (mag_bias samples j : ℚ) * mRes * magCalibration j

/-- Per-axis half-swing ("max chord length") in raw counts:
`mag_scale[j] = (mag_max[j]-mag_min[j])/2`. -/
def mag_scale (samples : List (Fin 3 → ℤ)) : Fin 3 → ℤ :=
  fun j => ((magMinMax samples).1 j - (magMinMax samples).2 j).tdiv 2

/-- `avg_rad`: the three half-swings summed in `float` and divided by 3. -/
def avg_rad (samples : List (Fin 3 → ℤ)) : ℚ :=
  ((mag_scale samples 0 + mag_scale samples 1 + mag_scale samples 2 : ℤ) : ℚ)
    / 3

/-- Soft-iron scale: `_magScale[j] = avg_rad/((float)mag_scale[j])`. -/
def magScaleField (samples : List (Fin 3 → ℤ)) : Fin 3 → ℚ :=
  fun j => avg_rad samples / (mag_scale samples j : ℚ)

/-- Division with an explicit zero-divisor check, used to observe that the
soft-iron computation divides by a zero half-swing on degenerate sample
sequences (the source has no such check; `none` marks exactly the inputs on
which the C code divides by zero). -/
def checkedDiv (a : ℚ) (b : ℤ) : Option ℚ :=
  if b = 0 then none else some (a / (b : ℚ))

/-- The three soft-iron divisions of `calibrateMagnetometer` with the
zero-divisor check made explicit. -/
def magScaleFieldChecked (samples : List (Fin 3 → ℤ)) :
    Option (Fin 3 → ℚ) :=
  match checkedDiv (avg_rad samples) (mag_scale samples 0),
      checkedDiv (avg_rad samples) (mag_scale samples 1),
      checkedDiv (avg_rad samples) (mag_scale samples 2) with
  | some a, some b, some c => some ![a, b, c]
  | _, _, _ => none

end MPU9250

/-- Claim C7: each axis's soft-iron scale is
(average of the three axes' half-swings) / (that axis's half-swing), the
half-swing of axis `j` being `(max_j - min_j)/2` over all samples.  For
half-swings `(100,100,100)` the scales are `(1,1,1)`; for `(100,200,100)`
the average is `400/3 ≈ 133.33` and the scales are `(4/3, 2/3, 4/3)`
(≈ `(1.333, 0.667, 1.333)`). -/
theorem C7_magnetometer_soft_iron :
    (∀ (samples : List (Fin 3 → ℤ)) (j : Fin 3),
      MPU9250.magScaleField samples j =
        ((((MPU9250.magMinMax samples).1 0 -
            (MPU9250.magMinMax samples).2 0).tdiv 2 : ℚ) +
          (((MPU9250.magMinMax samples).1 1 -
            (MPU9250.magMinMax samples).2 1).tdiv 2 : ℚ) +
          (((MPU9250.magMinMax samples).1 2 -
            (MPU9250.magMinMax samples).2 2).tdiv 2 : ℚ)) / 3 /
        ((((MPU9250.magMinMax samples).1 j -
            (MPU9250.magMinMax samples).2 j).tdiv 2 : ℚ))) ∧
    (∀ j : Fin 3, MPU9250.mag_scale
      [![100, 100, 100], ![-100, -100, -100]] j = 100) ∧
    (∀ j : Fin 3, MPU9250.magScaleField
      [![100, 100, 100], ![-100, -100, -100]] j = 1) ∧
    MPU9250.mag_scale [![100, 200, 100], ![-100, -200, -100]] 0 = 100 ∧
    MPU9250.mag_scale [![100, 200, 100], ![-100, -200, -100]] 1 = 200 ∧
    MPU9250.avg_rad [![100, 200, 100], ![-100, -200, -100]] = 400 / 3 ∧
    MPU9250.magScaleField [![100, 200, 100], ![-100, -200, -100]] 0 = 4 / 3 ∧
    MPU9250.magScaleField [![100, 200, 100], ![-100, -200, -100]] 1 = 2 / 3 ∧
    MPU9250.magScaleField [![100, 200, 100], ![-100, -200, -100]] 2 = 4 / 3
    := by
  have hs1 : ∀ j : Fin 3, MPU9250.mag_scale
      [![100, 100, 100], ![-100, -100, -100]] j = 100 := by decide
  have hs2 : ∀ j : Fin 3, MPU9250.mag_scale
      [![100, 200, 100], ![-100, -200, -100]] j =
        ![100, 200, 100] j := by decide
  refine ⟨fun samples j => ?_, hs1, fun j => ?_, hs2 0, hs2 1, ?_, ?_, ?_, ?_⟩
  · simp only [MPU9250.magScaleField, MPU9250.avg_rad, MPU9250.mag_scale]
    push_cast
    ring
  · rw [MPU9250.magScaleField, MPU9250.avg_rad, hs1 0, hs1 1, hs1 2, hs1 j]
    norm_num
  · rw [MPU9250.avg_rad, hs2 0, hs2 1, hs2 2]
    norm_num
  · rw [MPU9250.magScaleField, MPU9250.avg_rad, hs2 0, hs2 1, hs2 2]
    norm_num
  · rw [MPU9250.magScaleField, MPU9250.avg_rad, hs2 0, hs2 1, hs2 2]
    norm_num
  · rw [MPU9250.magScaleField, MPU9250.avg_rad, hs2 0, hs2 1, hs2 2]
    norm_num

/-- Claim C8: the soft-iron computation is unguarded against zero swing.
On the sample sequence of 128 identical readings `(5,5,5)` (the 8 Hz sample
count), each axis's observed maximum equals its observed minimum, the
half-swing divisor `mag_scale[j]` is `0`, and the scale computation with the
zero-divisor check made explicit reports a division by zero (`none`) —
nothing in `calibrateMagnetometer` prevents it. -/
theorem C8_soft_iron_division_by_zero :
    (MPU9250.magMinMax (List.replicate 128 ![5, 5, 5])).1 0 =
      (MPU9250.magMinMax (List.replicate 128 ![5, 5, 5])).2 0 ∧
    MPU9250.mag_scale (List.replicate 128 ![5, 5, 5]) 0 = 0 ∧
    (MPU9250.magScaleFieldChecked
      (List.replicate 128 ![5, 5, 5])).isNone = true := by
  refine ⟨?_, ?_, ?_⟩ <;>
    · set_option maxRecDepth 40000 in decide

/-- Claim C9: the hard-iron bias per axis is the midpoint `(max+min)/2` of
the observed raw counts, converted to physical units by multiplying with the
magnetometer resolution and that axis's factory sensitivity adjustment; in
raw counts, `max = +100, min = -100` gives bias `0`, and
`max = 150, min = 50` gives bias `100`. -/
theorem C9_magnetometer_hard_iron :
    (∀ (samples : List (Fin 3 → ℤ)) (mRes : ℚ)
        (magCalibration : Fin 3 → ℚ) (j : Fin 3),
      MPU9250.magBiasField samples mRes magCalibration j =
        ((((MPU9250.magMinMax samples).1 j +
            (MPU9250.magMinMax samples).2 j).tdiv 2 : ℚ)) * mRes *
          magCalibration j) ∧
    (∀ j : Fin 3, (MPU9250.magMinMax
      [![100, 100, 100], ![-100, -100, -100]]).1 j = 100) ∧
    (∀ j : Fin 3, (MPU9250.magMinMax
      [![100, 100, 100], ![-100, -100, -100]]).2 j = -100) ∧
    (∀ j : Fin 3, MPU9250.mag_bias
      [![100, 100, 100], ![-100, -100, -100]] j = 0) ∧
    (∀ j : Fin 3, (MPU9250.magMinMax
      [![150, 150, 150], ![50, 50, 50]]).1 j = 150) ∧
    (∀ j : Fin 3, (MPU9250.magMinMax
      [![150, 150, 150], ![50, 50, 50]]).2 j = 50) ∧
    (∀ j : Fin 3, MPU9250.mag_bias
      [![150, 150, 150], ![50, 50, 50]] j = 100) := by
  refine ⟨fun samples mRes magCalibration j => rfl, ?_, ?_, ?_, ?_, ?_, ?_⟩
    <;> decide

/-- Witness for C4 at four concrete devices, one per outcome: who-am-I
`0x70` gives `ERROR_IMU_ID`; a failing self test gives `ERROR_SELFTEST`;
magnetometer who-am-I `0x47` gives `ERROR_MAG_ID`; a fully conforming device
gives `ERROR_NONE`. -/
theorem C4_runTests_errors_witness :
    (MPU9250.runTests ⟨0x70, true, 0x48⟩).1 =
      MPU9250.Error_t.ERROR_IMU_ID ∧
    (MPU9250.runTests ⟨0x71, false, 0x48⟩).1 =
      MPU9250.Error_t.ERROR_SELFTEST ∧
    (MPU9250.runTests ⟨0x71, true, 0x47⟩).1 =
      MPU9250.Error_t.ERROR_MAG_ID ∧
    (MPU9250.runTests ⟨0x71, true, 0x48⟩).1 =
      MPU9250.Error_t.ERROR_NONE :=
  ⟨(C4_runTests_errors ⟨0x70, true, 0x48⟩).1.mpr (by decide),
   (C4_runTests_errors ⟨0x71, false, 0x48⟩).2.1.mpr (by decide),
   (C4_runTests_errors ⟨0x71, true, 0x47⟩).2.2.1.mpr (by decide),
   (C4_runTests_errors ⟨0x71, true, 0x48⟩).2.2.2.1.mpr (by decide)⟩
